import Mathlib

/-!
Shallow embedding of the wehrlab autopilot plugin tasks, translated from the
Python sources:

  - src/gap/nafc_gap.py         (class Nafc_Gap_Laser: init_lasers, request, stim_end,
                                 and the mode validation in the constructor)
  - src/tuning_curve/tuning_curve.py  (class TuningCurve: constructor and playtone stage)

Real numbers of the Python code are modelled as exact rationals, machine ints as
Int/Nat.  Fallible code returns Except or Option; the random draws of the Python
code (numpy.random.rand, numpy.random.choice, random.choice) are passed in as
explicit inputs (a rational r in [0,1) and a choice index).
-/

namespace NafcGapLaser

/-! ### Pulse compiler, from init_lasers (nafc_gap.py lines 193-211)

For one combination (duration, freq, duty_cycle) the loop body computes

    cycle_duration = (1/freq)*1000
    duty_cycle_on = duty_cycle * cycle_duration
    duty_cycle_off = cycle_duration - duty_cycle_on
    n_cycles = int(np.floor(duration/cycle_duration))
    durations = [duty_cycle_on, duty_cycle_off]*n_cycles
    values = [1, 0]*n_cycles
    dur_remaining = duration-(cycle_duration*n_cycles)
    if dur_remaining < duty_cycle_on:
        durations.append(dur_remaining); values.append(1)
    else:
        durations.extend([duty_cycle_on, dur_remaining-duty_cycle_on]); values.extend([1, 0])
-/

/-- cycle_duration = (1/freq)*1000, nafc_gap.py line 195. -/
def cycle_duration (freq : ℚ) : ℚ := (1 / freq) * 1000

/-- duty_cycle_on = duty_cycle * cycle_duration, line 196. -/
def duty_cycle_on (freq duty_cycle : ℚ) : ℚ := duty_cycle * cycle_duration freq

/-- duty_cycle_off = cycle_duration - duty_cycle_on, line 197. -/
def duty_cycle_off (freq duty_cycle : ℚ) : ℚ :=
  cycle_duration freq - duty_cycle_on freq duty_cycle

/-- n_cycles = int(np.floor(duration/cycle_duration)), line 200.
Rat.floor is the executable floor on rationals; it agrees with the
mathematical floor (lemma n_cycles_eq below). -/
def n_cycles (duration freq : ℚ) : ℤ := Rat.floor (duration / cycle_duration freq)

theorem n_cycles_eq (duration freq : ℚ) :
    n_cycles duration freq = ⌊duration / cycle_duration freq⌋ := by
  rw [n_cycles, Rat.floor_def', Rat.floor_def]

/-- dur_remaining = duration - (cycle_duration*n_cycles), line 205. -/
def dur_remaining (duration freq : ℚ) : ℚ :=
  duration - cycle_duration freq * (n_cycles duration freq : ℚ)

/-- The durations list built by the loop body (lines 201, 205-211).
Python list repetition by an int clamps negative counts to an empty list,
which Int.toNat also does. -/
def pulse_durations (duration freq duty_cycle : ℚ) : List ℚ :=
  let durations :=
    (List.replicate (n_cycles duration freq).toNat
      [duty_cycle_on freq duty_cycle, duty_cycle_off freq duty_cycle]).flatten
  if dur_remaining duration freq < duty_cycle_on freq duty_cycle then
    durations ++ [dur_remaining duration freq]
  else
    durations ++ [duty_cycle_on freq duty_cycle,
                  dur_remaining duration freq - duty_cycle_on freq duty_cycle]

/-- The values list built by the loop body (lines 202, 206-211). -/
def pulse_values (duration freq duty_cycle : ℚ) : List ℕ :=
  let values := (List.replicate (n_cycles duration freq).toNat [1, 0]).flatten
  if dur_remaining duration freq < duty_cycle_on freq duty_cycle then
    values ++ [1]
  else
    values ++ [1, 0]

theorem n_cycles_100_20 : n_cycles 100 20 = 2 := by
  rw [n_cycles_eq]; norm_num [cycle_duration]

theorem dur_remaining_100_20 : dur_remaining 100 20 = 0 := by
  rw [dur_remaining, n_cycles_100_20]; norm_num [cycle_duration]

theorem pulse_durations_100_20 : pulse_durations 100 20 (1/2) = [25, 25, 25, 25, 0] := by
  rw [pulse_durations]
  rw [dur_remaining_100_20, n_cycles_100_20]
  norm_num [duty_cycle_on, duty_cycle_off, cycle_duration, List.replicate, List.flatten]

theorem pulse_values_100_20 : pulse_values 100 20 (1/2) = [1, 0, 1, 0, 1] := by
  rw [pulse_values]
  rw [dur_remaining_100_20, n_cycles_100_20]
  norm_num [duty_cycle_on, cycle_duration, List.replicate, List.flatten]

theorem cycle_duration_pos (freq : ℚ) (hf : 0 < freq) : 0 < cycle_duration freq :=
  mul_pos (div_pos one_pos hf) (by norm_num)

theorem n_cycles_nonneg (duration freq : ℚ) (hd : 0 < duration) (hf : 0 < freq) :
    0 ≤ n_cycles duration freq := by
  rw [n_cycles_eq]
  exact Int.floor_nonneg.mpr (le_of_lt (div_pos hd (cycle_duration_pos freq hf)))

theorem dur_remaining_nonneg (duration freq : ℚ) (hd : 0 < duration) (hf : 0 < freq) :
    0 ≤ dur_remaining duration freq := by
  rw [dur_remaining, n_cycles_eq]
  have hcyc := cycle_duration_pos freq hf
  have h1 : ((⌊duration / cycle_duration freq⌋ : ℤ) : ℚ) ≤ duration / cycle_duration freq :=
    Int.floor_le _
  have h2 := mul_le_mul_of_nonneg_left h1 hcyc.le
  rw [mul_div_cancel₀ duration hcyc.ne'] at h2
  linarith

theorem mem_flatten_replicate_pair {k : ℕ} {a b x : ℚ}
    (hx : x ∈ (List.replicate k [a, b]).flatten) : x = a ∨ x = b := by
  rw [List.mem_flatten] at hx
  obtain ⟨l, hl, hxl⟩ := hx
  rw [List.eq_of_mem_replicate hl] at hxl
  simpa using hxl

theorem sum_flatten_replicate_pair (k : ℕ) (a b : ℚ) :
    ((List.replicate k [a, b]).flatten).sum = (k : ℚ) * (a + b) := by
  rw [List.sum_flatten, List.map_replicate, List.sum_replicate]
  simp [nsmul_eq_mul]
  ring

theorem toNat_cast_rat (n : ℤ) (h : 0 ≤ n) : ((n.toNat : ℕ) : ℚ) = (n : ℚ) := by
  exact_mod_cast congrArg (fun m : ℤ => (m : ℚ)) (Int.toNat_of_nonneg h)

/-- C2: for every duration > 0, frequency > 0 and 0 < duty_cycle <= 1, the
segment durations emitted by the pulse compiler in init_lasers sum to the
requested duration exactly (hence certainly within the 1e-6 ms tolerance the
spec allows), in both trailing-remainder branches of the code. -/
theorem C2_pulse_durations_sum (duration freq duty_cycle : ℚ)
    (hd : 0 < duration) (hf : 0 < freq)
    (hdc0 : 0 < duty_cycle) (hdc1 : duty_cycle ≤ 1) :
    (pulse_durations duration freq duty_cycle).sum = duration := by
  have hnn := n_cycles_nonneg duration freq hd hf
  have hcast := toNat_cast_rat _ hnn
  rw [pulse_durations]
  split
  · rw [List.sum_append, sum_flatten_replicate_pair, hcast, dur_remaining]
    simp [duty_cycle_on, duty_cycle_off]
    ring
  · rw [List.sum_append, sum_flatten_replicate_pair, hcast, dur_remaining]
    simp [duty_cycle_on, duty_cycle_off]
    ring

/-- C2 witness: the theorem applied at duration 100 ms, frequency 20 Hz,
duty cycle 1/2. -/
theorem C2_witness : (pulse_durations 100 20 (1/2)).sum = 100 :=
  C2_pulse_durations_sum 100 20 (1/2) (by norm_num) (by norm_num) (by norm_num) (by norm_num)

/-- C1 counterexample: at duration 100 ms, frequency 20 Hz, duty cycle 1/2 the
remainder is 0, yet the compiler appends a trailing zero-length on-segment
(value 1, duration 0) instead of omitting it, so a zero-length segment is
emitted, contrary to the claim. -/
theorem C1_counterexample :
    dur_remaining 100 20 = 0 ∧
    pulse_durations 100 20 (1/2) = [25, 25, 25, 25, 0] ∧
    (0 : ℚ) ∈ pulse_durations 100 20 (1/2) ∧
    (pulse_durations 100 20 (1/2)).getLast? = some 0 ∧
    (pulse_values 100 20 (1/2)).getLast? = some 1 := by
  refine ⟨dur_remaining_100_20, pulse_durations_100_20, ?_, ?_, ?_⟩
  · rw [pulse_durations_100_20]; simp
  · rw [pulse_durations_100_20]; simp
  · rw [pulse_values_100_20]; simp

/-- C1 amended: for every duration > 0, frequency > 0 and 0 < duty_cycle <= 1,
the pulse compiler never emits a negative-length segment, but zero-length
segments are possible; in particular when the remainder is 0 the compiler
appends a trailing zero-length segment rather than omitting it. -/
theorem C1_amended_nonneg_and_zero_trailing (duration freq duty_cycle : ℚ)
    (hd : 0 < duration) (hf : 0 < freq)
    (hdc0 : 0 < duty_cycle) (hdc1 : duty_cycle ≤ 1) :
    (∀ x ∈ pulse_durations duration freq duty_cycle, 0 ≤ x) ∧
    (dur_remaining duration freq = 0 →
      (pulse_durations duration freq duty_cycle).getLast? = some 0) := by
  have hcyc := cycle_duration_pos freq hf
  have hon : 0 < duty_cycle_on freq duty_cycle := mul_pos hdc0 hcyc
  have hoff : 0 ≤ duty_cycle_off freq duty_cycle := by
    rw [duty_cycle_off, duty_cycle_on]
    nlinarith
  have hrem := dur_remaining_nonneg duration freq hd hf
  constructor
  · intro x hx
    rw [pulse_durations] at hx
    split at hx
    · rcases List.mem_append.mp hx with h | h
      · rcases mem_flatten_replicate_pair h with rfl | rfl
        · exact hon.le
        · exact hoff
      · simp at h
        subst h
        exact hrem
    · rcases List.mem_append.mp hx with h | h
      · rcases mem_flatten_replicate_pair h with rfl | rfl
        · exact hon.le
        · exact hoff
      · simp at h
        rcases h with rfl | rfl
        · exact hon.le
        · linarith [not_lt.mp (by assumption :
            ¬ dur_remaining duration freq < duty_cycle_on freq duty_cycle)]
  · intro h0
    rw [pulse_durations]
    rw [if_pos (by rw [h0]; exact hon)]
    rw [h0]
    simp

/-- C1 amended witness: the amended theorem applied at duration 100 ms,
frequency 20 Hz, duty cycle 1/2, where the remainder is 0. -/
theorem C1_amended_witness :
    (∀ x ∈ pulse_durations 100 20 (1/2), 0 ≤ x) ∧
    (dur_remaining 100 20 = 0 → (pulse_durations 100 20 (1/2)).getLast? = some 0) :=
  C1_amended_nonneg_and_zero_trailing 100 20 (1/2)
    (by norm_num) (by norm_num) (by norm_num) (by norm_num)

/-! ### Condition registry, from init_lasers (nafc_gap.py lines 190-229)

    condition_iter = itertools.product(self.laser_durations, self.laser_freq,
                                       self.laser_duty_cycle)
    conditions = []
    for duration, freq, duty_cycle in condition_iter:
        ... pulse compilation above ...
        script_id = the f-string duration _ freq _ duty_cycle
        self.hardware[LASERS][LR].store_series(script_id, values=values, durations=durations)
        conditions.append({freq, duty_cycle, duration, script_id})
    self.laser_conditions = tuple(conditions)
-/

/-- The script id built at nafc_gap.py line 214 is the f-string rendering of the
parameter triple separated by underscores.  Python float formatting is an
injective encoding of the three parameters, so the id is modelled as the
parameter triple itself. -/
structure ScriptId where
  duration : ℚ
  freq : ℚ
  duty_cycle : ℚ
deriving DecidableEq

/-- One entry of laser_conditions (the dict appended at nafc_gap.py
lines 220-225). -/
structure LaserCondition where
  freq : ℚ
  duty_cycle : ℚ
  duration : ℚ
  script_id : ScriptId
deriving DecidableEq

/-- The dict appended for one (duration, freq, duty_cycle) combination. -/
def mkCondition (duration freq duty_cycle : ℚ) : LaserCondition :=
  { freq := freq, duty_cycle := duty_cycle, duration := duration,
    script_id := ⟨duration, freq, duty_cycle⟩ }

/-- laser_conditions as built by the loop of init_lasers: itertools.product
iterates duration outermost, then freq, then duty_cycle innermost. -/
def init_laser_conditions (laser_durations laser_freq laser_duty_cycle : List ℚ) :
    List LaserCondition :=
  laser_durations.flatMap fun duration =>
    laser_freq.flatMap fun freq =>
      laser_duty_cycle.map fun duty_cycle => mkCondition duration freq duty_cycle

/-- Spec-side definition, following the words of the spec: one condition per
element of the Cartesian product, in Cartesian-product enumeration order
(duration outer, frequency middle, duty cycle inner), phrased with the library
Cartesian product on lists. -/
def cartesian_conditions (durations freqs duty_cycles : List ℚ) : List LaserCondition :=
  ((durations.product freqs).product duty_cycles).map fun p =>
    mkCondition p.1.1 p.1.2 p.2

/-- C5: the condition registry builds exactly one condition per element of the
Cartesian product of the three parameter lists, in enumeration order with
duration as the outer loop, frequency in the middle and duty_cycle innermost
(it coincides with the library Cartesian product of the lists, and has the
product of the three lengths as its length), each condition carrying the
deterministic script id of its parameter triple; in particular
durations=[10], frequencies=[20,30], duty_cycles=[1/10] yields exactly 2
conditions with distinct script ids. -/
theorem C5_conditions_cartesian :
    (∀ D F C : List ℚ, init_laser_conditions D F C = cartesian_conditions D F C) ∧
    (∀ D F C : List ℚ,
      (init_laser_conditions D F C).length = D.length * F.length * C.length) ∧
    init_laser_conditions [10] [20, 30] [1/10] =
      [mkCondition 10 20 (1/10), mkCondition 10 30 (1/10)] ∧
    ((init_laser_conditions [10] [20, 30] [1/10]).map LaserCondition.script_id).Nodup := by
  have hmain : ∀ D F C : List ℚ, init_laser_conditions D F C = cartesian_conditions D F C := by
    intro D F C
    simp only [init_laser_conditions, cartesian_conditions, List.product,
      List.flatMap_assoc, List.map_flatMap, List.flatMap_map, List.map_map]
    rfl
  refine ⟨hmain, ?_, by rfl, ?_⟩
  · intro D F C
    rw [hmain]
    simp only [cartesian_conditions, List.length_map]
    have h1 : (D.product F).length = D.length * F.length := List.length_product D F
    have h2 : ((D.product F).product C).length = (D.product F).length * C.length :=
      List.length_product _ C
    rw [h2, h1]
  · simp [init_laser_conditions, mkCondition, List.Nodup, ScriptId.mk.injEq]

/-- C7: if any of the three parameter lists is empty, init_lasers builds an
empty condition tuple and completes normally (the loop body never runs, so no
error can be raised by it). -/
theorem C7_empty_list_empty_conditions (D F C : List ℚ)
    (h : D = [] ∨ F = [] ∨ C = []) : init_laser_conditions D F C = [] := by
  rcases h with rfl | rfl | rfl
  · rfl
  · simp [init_laser_conditions]
  · simp [init_laser_conditions]

/-- C7 witness: an empty durations list with non-empty frequency and duty-cycle
lists yields an empty condition set. -/
theorem C7_witness : init_laser_conditions [] [20] [1/10] = [] :=
  C7_empty_list_empty_conditions [] [20] [1/10] (Or.inl rfl)

/-! ### Constructor mode validation (nafc_gap.py lines 134-172)

The constructor stores self.laser_mode = str(laser_mode).upper() (line 135) and
self.arena_led_mode = arena_led_mode (line 136, no normalisation), then after
the parent constructor returns it checks

    if self.laser_mode not in (L, R, BOTH): raise ValueError(...)

and finally branches on arena_led_mode: ON turns the LED on, STIM stores an
LED series, LASER evaluates int(self.laser_durations) -- which raises
TypeError because laser_durations is always a list (lines 140-142) -- and any
other value raises ValueError.  The model takes laser_mode to be the stored,
already upper-cased attribute. -/

/-- Validation performed by the Nafc_Gap_Laser constructor: the laser_mode
check (lines 150-153) followed by the arena_led_mode branch (lines 161-172).
An Except.error value models a raised Python exception, carrying the error
text. -/
def init_mode_checks (laser_mode arena_led_mode : String) : Except String Unit :=
  if laser_mode ∉ (["L", "R", "BOTH"] : List String) then
    Except.error ("Got invalid laser_mode, need one of L, R, BOTH, got " ++ laser_mode)
  else if arena_led_mode == "ON" then Except.ok ()
  else if arena_led_mode == "STIM" then Except.ok ()
  else if arena_led_mode == "LASER" then
    Except.error "TypeError: int() argument must be a string, not list"
  else
    Except.error ("arena_led_mode must be one of ON or STIM or LASER, got " ++ arena_led_mode)

/-- C8: constructing the task with a qualification mode outside L, R, BOTH
raises a descriptive ValueError naming the offending mode, and with a valid
qualification mode but an LED-illumination mode outside its enumerated values
ON, STIM, LASER raises a descriptive ValueError naming the offending mode; in
neither case is a silent default substituted (construction does not complete
normally). -/
theorem C8_invalid_modes_fail (laser_mode arena_led_mode : String) :
    (laser_mode ∉ (["L", "R", "BOTH"] : List String) →
      init_mode_checks laser_mode arena_led_mode =
        Except.error ("Got invalid laser_mode, need one of L, R, BOTH, got " ++ laser_mode)) ∧
    (laser_mode ∈ (["L", "R", "BOTH"] : List String) →
      arena_led_mode ∉ (["ON", "STIM", "LASER"] : List String) →
      init_mode_checks laser_mode arena_led_mode =
        Except.error
          ("arena_led_mode must be one of ON or STIM or LASER, got " ++ arena_led_mode)) := by
  constructor
  · intro h
    simp only [init_mode_checks]
    rw [if_pos h]
  · intro h hA
    simp only [List.mem_cons, List.mem_singleton, not_or] at hA
    simp [init_mode_checks, h, hA.1, hA.2.1, hA.2.2]

/-- C8 witness: the theorem applied at the invalid qualification mode X (with a
valid LED mode), and at the valid qualification mode L with the invalid LED
mode BLAH. -/
theorem C8_witness :
    init_mode_checks "X" "ON" =
      Except.error "Got invalid laser_mode, need one of L, R, BOTH, got X" ∧
    init_mode_checks "L" "BLAH" =
      Except.error "arena_led_mode must be one of ON or STIM or LASER, got BLAH" :=
  ⟨(C8_invalid_modes_fail "X" "ON").1 (by decide),
   (C8_invalid_modes_fail "L" "BLAH").2 (by decide) (by decide)⟩

/-! ### Trial request and stimulus-end callback (nafc_gap.py lines 234-318)

request does, in order:

    self.trigger_lock.acquire()                 -- manual acquire, no try/finally
    data = super().request(*args, **kwargs)     -- may raise; then the exception
                                                -- propagates and release below
                                                -- is never executed
    test_laser = mode/target qualification
    duration = duty_cycle = frequency = 0; do_laser = False
    if test_laser:
        if np.random.rand() <= self.laser_probability:
            do_laser = True
            condition = np.random.choice(self.laser_conditions)   -- raises on empty tuple
            duration, duty_cycle, frequency = condition fields
            self.laser_script = condition
        -- NOTE: a failed draw leaves self.laser_script unchanged
    else:
        self.laser_script = None
    if self.arena_led_mode == "STIM": self.triggers[C].insert(0, led-on action)
    data laser fields are stored
    self.trigger_lock.release()
    return data

stim_end fires the stored script (and does NOT clear self.laser_script):

    if self.laser_script is not None:
        self.hardware[LASERS][LR].series(id=self.laser_script[script_id])
    if self.arena_led_mode == "LASER":
        with self.trigger_lock:
            insert or create the led-on trigger in self.triggers[C]

The random draws (numpy.random.rand and the index drawn by
numpy.random.choice) are explicit inputs r and choice; the work done by the
parent request is abstracted as an Except value carrying either the trigger
list it installs or the exception it raises. -/

/-- One entry of the per-gate trigger list self.triggers[C]. -/
inductive Trigger where
  | ledOn : Trigger
  | stimAction : ℕ → Trigger
deriving DecidableEq

/-- Configuration of the task fixed at construction. -/
structure GapConfig where
  laser_mode : String
  laser_probability : ℚ
  arena_led_mode : String
  laser_conditions : List LaserCondition
deriving DecidableEq

/-- Mutable task state touched by request and stim_end. -/
structure GapState where
  lockHeld : Bool
  laser_script : Option LaserCondition
  triggersC : Option (List Trigger)
  fired_scripts : List ScriptId
deriving DecidableEq

/-- The laser fields merged into the trial data record by request
(lines 293-296). -/
structure LaserTrialData where
  laser : Bool
  laser_duration : ℚ
  laser_duty_cycle : ℚ
  laser_frequency : ℚ
deriving DecidableEq

/-- The qualification test of request (lines 252-258): test_laser = False,
then the if/elif chain on (laser_mode, target). -/
def test_laser (laser_mode target : String) : Bool :=
  if laser_mode == "L" && target == "L" then true
  else if laser_mode == "R" && target == "R" then true
  else if laser_mode == "BOTH" then true
  else false

/-- Tail of request after the laser logic (lines 287-301): the STIM
arena-LED trigger insertion at the front of triggers[C], the data fields,
and the lock release. -/
def finish_request (cfg : GapConfig) (s : GapState) (do_laser : Bool)
    (duration duty_cycle frequency : ℚ) : GapState × Except String LaserTrialData :=
  let s :=
    if cfg.arena_led_mode == "STIM" then
      { s with triggersC := some (Trigger.ledOn :: s.triggersC.getD []) }
    else s
  ({ s with lockHeld := false },
   Except.ok { laser := do_laser, laser_duration := duration,
               laser_duty_cycle := duty_cycle, laser_frequency := frequency })

/-- request (nafc_gap.py lines 234-301).  superOutcome is the parent request:
ok with the trigger list it installs, or error if it raises.  r is the
numpy.random.rand draw, choice the index drawn by numpy.random.choice. -/
def request (cfg : GapConfig) (target : String)
    (superOutcome : Except String (List Trigger)) (r : ℚ) (choice : ℕ)
    (s : GapState) : GapState × Except String LaserTrialData :=
  let s := { s with lockHeld := true }
  match superOutcome with
  | Except.error e => (s, Except.error e)
  | Except.ok trigs =>
    let s := { s with triggersC := some trigs }
    if test_laser cfg.laser_mode target then
      if r ≤ cfg.laser_probability then
        match cfg.laser_conditions.get? choice with
        | none =>
          (s, Except.error "ValueError: a must be 1-dimensional or an integer")
        | some condition =>
          let s := { s with laser_script := some condition }
          finish_request cfg s true condition.duration condition.duty_cycle condition.freq
      else
        finish_request cfg s false 0 0 0
    else
      let s := { s with laser_script := none }
      finish_request cfg s false 0 0 0

/-- stim_end (nafc_gap.py lines 303-318).  Firing a script appends its id to
fired_scripts; the laser_script binding is left in place, exactly as in the
source.  The with-statement of the LASER branch acquires and then releases the
trigger lock, so it is modelled as the two assignments around the trigger
mutation. -/
def stim_end (cfg : GapConfig) (s : GapState) : GapState :=
  let s :=
    match s.laser_script with
    | some condition => { s with fired_scripts := s.fired_scripts ++ [condition.script_id] }
    | none => s
  if cfg.arena_led_mode == "LASER" then
    let s := { s with lockHeld := true }
    let s :=
      match s.triggersC with
      | some l => { s with triggersC := some (Trigger.ledOn :: l) }
      | none => { s with triggersC := some [Trigger.ledOn] }
    { s with lockHeld := false }
  else s

/-- The laser condition used in the concrete traces below. -/
def cond0 : LaserCondition := mkCondition 10 20 (1/10)

/-- Configuration for the C3 and C4 traces: qualification mode BOTH, laser
probability 1/2, arena LED mode ON, a single installed condition. -/
def gapCfg : GapConfig :=
  { laser_mode := "BOTH", laser_probability := 1/2, arena_led_mode := "ON",
    laser_conditions := [cond0] }

/-- Configuration with laser probability 1, used by the C6 witness. -/
def gapCfg1 : GapConfig :=
  { laser_mode := "BOTH", laser_probability := 1, arena_led_mode := "ON",
    laser_conditions := [cond0] }

/-- Initial state: lock free, no bound laser script, no trigger list for gate
C yet, nothing fired. -/
def gapS0 : GapState :=
  { lockHeld := false, laser_script := none, triggersC := none, fired_scripts := [] }

/-- C3: FAILS ON THE CODE.  request acquires the trigger lock manually and
releases it only on the normal return path; when the parent request raises,
the exception propagates out of request with the lock still held.  Evaluated
here at a concrete erroring trial: starting from a state with the lock free,
request returns abnormally (the error propagates) and the lock is left held. -/
theorem C3_lock_left_held_on_error :
    (request gapCfg "L" (Except.error "Exception raised by parent request") 0 0
        gapS0).1.lockHeld = true ∧
    (request gapCfg "L" (Except.error "Exception raised by parent request") 0 0
        gapS0).2 = Except.error "Exception raised by parent request" :=
  ⟨rfl, rfl⟩

/-- C4: FAILS ON THE CODE.  Trace with mode BOTH and probability 1/2: trial 1
draws r = 0 (success) and binds cond0; its stim_end fires cond0 but does not
clear the binding; trial 2 draws r = 1 (failed draw, which leaves laser_script
untouched) and records laser = false in its data, yet its stim_end fires cond0
again.  So a trial whose decision selected nothing still fires a stale
condition from an earlier trial. -/
theorem C4_stale_condition_refired :
    (request gapCfg "L" (Except.ok []) 0 0 gapS0).2 =
      Except.ok { laser := true, laser_duration := 10, laser_duty_cycle := 1/10,
                  laser_frequency := 20 } ∧
    (stim_end gapCfg (request gapCfg "L" (Except.ok []) 0 0 gapS0).1).fired_scripts =
      [cond0.script_id] ∧
    (request gapCfg "L" (Except.ok []) 1 0
        (stim_end gapCfg (request gapCfg "L" (Except.ok []) 0 0 gapS0).1)).2 =
      Except.ok { laser := false, laser_duration := 0, laser_duty_cycle := 0,
                  laser_frequency := 0 } ∧
    (request gapCfg "L" (Except.ok []) 1 0
        (stim_end gapCfg (request gapCfg "L" (Except.ok []) 0 0 gapS0).1)).1.laser_script =
      some cond0 ∧
    (stim_end gapCfg
        (request gapCfg "L" (Except.ok []) 1 0
          (stim_end gapCfg (request gapCfg "L" (Except.ok []) 0 0 gapS0).1)).1).fired_scripts =
      [cond0.script_id, cond0.script_id] := by
  have h1 : ((0:ℚ) ≤ 1/2) := by norm_num
  have h1b : ((0:ℚ) ≤ (2:ℚ)⁻¹) := by norm_num
  have h2 : ¬((1:ℚ) ≤ 1/2) := by norm_num
  have h2b : ¬((1:ℚ) ≤ (2:ℚ)⁻¹) := by norm_num
  simp [request, finish_request, stim_end, test_laser, gapCfg, gapS0, cond0,
    mkCondition, h1, h1b, h2, h2b]

/-- C6: with qualification mode BOTH and probability 1, every trial qualifies
and the draw r in [0,1) always satisfies r <= 1, so request always binds a
condition that is a member of the installed condition list and reports it in
the trial data (it never leaves the selection empty), for any target. -/
theorem C6_both_prob_one_always_selects (cfg : GapConfig) (target : String)
    (trigs : List Trigger) (r : ℚ) (choice : ℕ) (s : GapState)
    (hmode : cfg.laser_mode = "BOTH") (hprob : cfg.laser_probability = 1)
    (hr0 : 0 ≤ r) (hr1 : r < 1)
    (hchoice : choice < cfg.laser_conditions.length) :
    ∃ c : LaserCondition, c ∈ cfg.laser_conditions ∧
      (request cfg target (Except.ok trigs) r choice s).1.laser_script = some c ∧
      (request cfg target (Except.ok trigs) r choice s).2 =
        Except.ok { laser := true, laser_duration := c.duration,
                    laser_duty_cycle := c.duty_cycle, laser_frequency := c.freq } := by
  have htl : test_laser cfg.laser_mode target = true := by
    rw [hmode, test_laser]
    by_cases ht : target = "L" <;> simp [ht]
  have hr : r ≤ cfg.laser_probability := by rw [hprob]; exact le_of_lt hr1
  have hget : cfg.laser_conditions[choice]? = some cfg.laser_conditions[choice] :=
    List.getElem?_eq_getElem hchoice
  refine ⟨cfg.laser_conditions[choice], List.getElem_mem hchoice, ?_, ?_⟩ <;>
    simp [request, htl, hr, hget, finish_request, apply_ite]

/-- C6 witness: the theorem applied at the configuration with probability 1,
target R, draw r = 0, choice index 0. -/
theorem C6_witness :
    ∃ c : LaserCondition, c ∈ gapCfg1.laser_conditions ∧
      (request gapCfg1 "R" (Except.ok []) 0 0 gapS0).1.laser_script = some c ∧
      (request gapCfg1 "R" (Except.ok []) 0 0 gapS0).2 =
        Except.ok { laser := true, laser_duration := c.duration,
                    laser_duty_cycle := c.duty_cycle, laser_frequency := c.freq } :=
  C6_both_prob_one_always_selects gapCfg1 "R" [] 0 0 gapS0 rfl rfl
    (by norm_num) (by norm_num) (by decide)

end NafcGapLaser

namespace TuningCurve

/-! ### TuningCurve task (src/tuning_curve/tuning_curve.py)

Constructor (lines 55-111): builds one Tone per element of
itertools.product(frequencies, amplitudes), sets trial_counter =
itertools.count() (first value 0), and

    if stage_block is None:
        stage_block = threading.Event()
    self.stage_block = stage_block

playtone (lines 117-150): clears the stage block, picks a random sound
(random.choice, modelled by an explicit pick index; it raises IndexError on an
empty list, modelled by the failing lookup), plays it, takes
current_trial = next(trial_counter), builds the data record, arms the
single-shot ISI timer whose action is stage_block.set, and returns the data.
A threading.Event is modelled by its flag; a Python attribute that may hold
None instead of an Event is an Option. -/

/-- One Tone sound built by the constructor (line 91). -/
structure Tone where
  frequency : ℚ
  amplitude : ℚ
  duration : ℤ
  ramp : ℚ
deriving DecidableEq

/-- threading.Event, modelled by its internal flag. -/
structure Event where
  isSet : Bool
deriving DecidableEq

/-- The task state touched by the constructor and playtone. -/
structure TCState where
  inter_stimulus_interval : ℤ
  sounds : List Tone
  trial_counter : ℕ
  stage_block : Option Event
  timer_armed : Bool
deriving DecidableEq

/-- The data record returned by playtone (lines 139-145). -/
structure TrialRecord where
  trial_num : ℕ
  timestamp : String
  frequency : ℚ
  amplitude : ℚ
  ramp : ℚ
deriving DecidableEq

/-- The constructor, restricted to the state playtone uses.  The sounds list
enumerates itertools.product(frequencies, amplitudes); a missing stage_block
argument (none) is replaced by a fresh, unset Event. -/
def mkTuningCurve (frequencies amplitudes : List ℚ) (duration : ℤ) (ramp : ℚ)
    (stage_block : Option Event) (inter_stimulus_interval : ℤ) : TCState :=
  { inter_stimulus_interval := inter_stimulus_interval
    sounds := frequencies.flatMap fun freq => amplitudes.map fun amp =>
      { frequency := freq, amplitude := amp, duration := duration, ramp := ramp }
    trial_counter := 0
    stage_block := some (stage_block.getD { isSet := false })
    timer_armed := false }

/-- playtone (lines 117-150).  pick is the index drawn by random.choice, now
the timestamp.  none models a raised exception: stage_block.clear() on a None
stage block (AttributeError), or random.choice on an empty sounds list
(IndexError). -/
def playtone (s : TCState) (pick : ℕ) (now : String) : Option (TCState × TrialRecord) :=
  match s.stage_block with
  | none => none
  | some _ =>
    let s1 := { s with stage_block := some { isSet := false } }
    match s1.sounds[pick]? with
    | none => none
    | some sound =>
      let record : TrialRecord :=
        { trial_num := s1.trial_counter, timestamp := now,
          frequency := sound.frequency, amplitude := sound.amplitude,
          ramp := sound.ramp }
      some ({ s1 with trial_counter := s1.trial_counter + 1, timer_armed := true },
            record)

/-- The armed ISI timer firing: threading.Timer(isi, self.stage_block.set)
invokes set on the stage block; on a None stage block this would raise. -/
def timer_fire (s : TCState) : Option TCState :=
  match s.stage_block with
  | none => none
  | some _ => some { s with stage_block := some { isSet := true }, timer_armed := false }

/-- A sequence of playtone invocations, collecting the returned records;
aborts at the first raised exception. -/
def run_playtones (s : TCState) (picks : List (ℕ × String)) :
    Option (TCState × List TrialRecord) :=
  match picks with
  | [] => some (s, [])
  | (pick, now) :: rest =>
    match playtone s pick now with
    | none => none
    | some (s1, record) =>
      match run_playtones s1 rest with
      | none => none
      | some (s2, records) => some (s2, record :: records)

theorem playtone_eq (s : TCState) (pick : ℕ) (now : String)
    (e : Event) (he : s.stage_block = some e) (hlen : pick < s.sounds.length) :
    playtone s pick now =
      some ({ s with stage_block := some { isSet := false },
                     trial_counter := s.trial_counter + 1, timer_armed := true },
            { trial_num := s.trial_counter, timestamp := now,
              frequency := (s.sounds[pick]).frequency,
              amplitude := (s.sounds[pick]).amplitude,
              ramp := (s.sounds[pick]).ramp }) := by
  rw [playtone, he]
  simp [List.getElem?_eq_getElem, hlen]

theorem run_playtones_spec (picks : List (ℕ × String)) (s : TCState)
    (hsb : s.stage_block.isSome)
    (hpicks : ∀ p ∈ picks, p.1 < s.sounds.length) :
    ∃ sEnd records, run_playtones s picks = some (sEnd, records) ∧
      records.map TrialRecord.trial_num = List.range' s.trial_counter picks.length ∧
      sEnd.trial_counter = s.trial_counter + picks.length ∧
      sEnd.stage_block.isSome ∧ sEnd.sounds = s.sounds := by
  induction picks generalizing s with
  | nil => exact ⟨s, [], rfl, rfl, by simp, hsb, rfl⟩
  | cons p rest ih =>
    obtain ⟨pick, now⟩ := p
    obtain ⟨e, he⟩ := Option.isSome_iff_exists.mp hsb
    have hlen : pick < s.sounds.length := hpicks (pick, now) (List.mem_cons_self _ _)
    have hplay := playtone_eq s pick now e he hlen
    obtain ⟨sEnd, records, hrun, hmap, hcount, hsb2, hsounds⟩ :=
      ih { s with stage_block := some { isSet := false },
                  trial_counter := s.trial_counter + 1, timer_armed := true }
        (by simp)
        (by intro q hq; exact hpicks q (List.mem_cons_of_mem _ hq))
    refine ⟨sEnd,
      { trial_num := s.trial_counter, timestamp := now,
        frequency := (s.sounds[pick]).frequency,
        amplitude := (s.sounds[pick]).amplitude,
        ramp := (s.sounds[pick]).ramp } :: records, ?_, ?_, ?_, hsb2, hsounds⟩
    · rw [run_playtones, hplay]
      simp only [hrun]
    · simp only [List.map_cons, hmap, List.length_cons]
      rw [List.range'_succ]
    · rw [hcount]
      simp only [List.length_cons]
      omega

/-- C9: run from a freshly constructed task, every playtone invocation returns
a data record containing a trial_num field, and across consecutive invocations
the trial numbers are 0, 1, 2, ...: the first is 0 and each subsequent call
increments it by exactly 1. -/
theorem C9_trial_num_increments (frequencies amplitudes : List ℚ) (duration : ℤ)
    (ramp : ℚ) (stage_block : Option Event) (isi : ℤ) (picks : List (ℕ × String))
    (hpicks : ∀ p ∈ picks, p.1 <
      (mkTuningCurve frequencies amplitudes duration ramp stage_block isi).sounds.length) :
    ∃ sEnd records,
      run_playtones (mkTuningCurve frequencies amplitudes duration ramp stage_block isi)
          picks = some (sEnd, records) ∧
      records.map TrialRecord.trial_num = List.range picks.length := by
  obtain ⟨sEnd, records, hrun, hmap, -, -, -⟩ :=
    run_playtones_spec picks _ (by simp [mkTuningCurve]) hpicks
  refine ⟨sEnd, records, hrun, ?_⟩
  rw [hmap, List.range_eq_range']
  rfl

/-- C9 witness: two tones (1000 Hz and 2000 Hz at amplitude 1/10), two
invocations picking sound indices 0 then 1; the returned trial numbers are
0 and 1. -/
theorem C9_witness :
    ∃ sEnd records,
      run_playtones (mkTuningCurve [1000, 2000] [1/10] 500 3 none 500)
          [(0, "t0"), (1, "t1")] = some (sEnd, records) ∧
      records.map TrialRecord.trial_num = List.range 2 :=
  C9_trial_num_increments [1000, 2000] [1/10] 500 3 none 500 [(0, "t0"), (1, "t1")]
    (by decide)

/-- C10: constructed without a stage-advance signal (stage_block is None), the
constructor substitutes a fresh unset Event, so for every sequence of playtone
invocations with valid sound choices the clear operation of each invocation
acts on a valid signal object (no invocation fails), the final state still
holds a valid signal, and the set operation of the armed ISI timer also acts
on a valid signal. -/
theorem C10_fresh_stage_block (frequencies amplitudes : List ℚ) (duration : ℤ)
    (ramp : ℚ) (isi : ℤ) (picks : List (ℕ × String))
    (hpicks : ∀ p ∈ picks, p.1 <
      (mkTuningCurve frequencies amplitudes duration ramp none isi).sounds.length) :
    (mkTuningCurve frequencies amplitudes duration ramp none isi).stage_block =
      some { isSet := false } ∧
    ∃ sEnd records,
      run_playtones (mkTuningCurve frequencies amplitudes duration ramp none isi)
          picks = some (sEnd, records) ∧
      sEnd.stage_block.isSome ∧ (timer_fire sEnd).isSome := by
  refine ⟨rfl, ?_⟩
  obtain ⟨sEnd, records, hrun, -, -, hsb, -⟩ :=
    run_playtones_spec picks _ (by simp [mkTuningCurve]) hpicks
  obtain ⟨e, he⟩ := Option.isSome_iff_exists.mp hsb
  refine ⟨sEnd, records, hrun, hsb, ?_⟩
  rw [timer_fire, he]
  rfl

/-- C10 witness: one tone, one invocation, constructed with stage_block None. -/
theorem C10_witness :
    (mkTuningCurve [1000] [1/10] 500 3 none 500).stage_block = some { isSet := false } ∧
    ∃ sEnd records,
      run_playtones (mkTuningCurve [1000] [1/10] 500 3 none 500) [(0, "t0")] =
        some (sEnd, records) ∧
      sEnd.stage_block.isSome ∧ (timer_fire sEnd).isSome :=
  C10_fresh_stage_block [1000] [1/10] 500 3 500 [(0, "t0")] (by decide)

end TuningCurve
